import Mathlib

/-!
# Verification of the IS74 intercom integration core

A shallow embedding, in Lean 4, of the Session & Device Orchestration
subsystem of the `is74domofon` repository:

* `auth_manager.py` — `TokenSet.is_expired` and the `AuthManager`
  rate limiter (`_check_rate_limit`, `_record_failed_attempt`,
  `_reset_failed_attempts`, and the three authentication steps);
* `api_client.py` — the sensitive-data masking rules
  (`SENSITIVE_PATTERNS` / `_mask_sensitive_data`) and the retry wrapper
  around `_request`;
* `device_controller.py` — `get_devices` (30 s cache, primary/secondary
  fetch), `open_door` (device resolution, NOT_FOUND path, lock-reset
  timer), and the online/offline monitor
  (`update_device_status` / `_check_device_connections`);
* `event_manager.py` — `log_event` (100-entry cap) and `get_history`;
* `auto_open_manager.py` / `config_manager.py` — `should_auto_open`.

Time is modelled as integral seconds (`Nat`); `datetime.now()` becomes an
explicit `now : Nat` argument.  Mutable object state becomes explicit
state records, and coroutine timers / monitor loops become explicit
transition functions over those records.
-/

namespace IS74

/-! ## auth_manager.py — TokenSet -/

/-- The `TokenSet` from `auth_manager.py` (lines 18–50).  `datetime` fields
are seconds (`Nat`); optional fields keep their `Optional` shape. -/
structure TokenSet where
  accessToken : String
  userId : Int
  profileId : Int
  expiresAt : Nat
  authid : Option String := none
  firebaseToken : Option String := none
  firebaseExpiresAt : Option Nat := none
  deviceId : Option String := none
  phone : Option String := none
  deriving DecidableEq

/-- The `TokenSet.is_expired` (line 32–34): `datetime.now() >= self.expires_at`. -/
def TokenSet.isExpired (now : Nat) (t : TokenSet) : Bool :=
  decide (t.expiresAt ≤ now)

/-- The `TokenSet.expires_soon` (line 36–38). -/
def TokenSet.expiresSoon (now : Nat) (threshold : Nat := 300) (t : TokenSet) : Bool :=
  decide (t.expiresAt - threshold ≤ now)

/-! ## auth_manager.py — rate limiter

State of the `AuthManager` rate limiter: `_failed_attempts` and
`_lockout_until` (lines 124–125). -/

/-- Rate-limiter state of `AuthManager`. -/
structure AuthState where
  failedAttempts : Nat
  lockoutUntil : Option Nat
  deriving DecidableEq

/-- The `AuthManager.MAX_FAILED_ATTEMPTS` (line 110). -/
def MAX_FAILED_ATTEMPTS : Nat := 3

/-- The `AuthManager.LOCKOUT_DURATION_SECONDS` (line 111). -/
def LOCKOUT_DURATION_SECONDS : Nat := 300

/-- The `AuthManager._check_rate_limit` (lines 134–146): returns
`some retryAfter` when a `RateLimitError` is raised (lockout active),
`none` when the call may proceed. -/
def checkRateLimit (now : Nat) (s : AuthState) : Option Nat :=
  match s.lockoutUntil with
  | some t => if now < t then some (t - now) else none
  | none => none

/-- The `AuthManager._record_failed_attempt` (lines 148–155). -/
def recordFailedAttempt (now : Nat) (s : AuthState) : AuthState :=
  let f := s.failedAttempts + 1
  { failedAttempts := f
    lockoutUntil :=
      if MAX_FAILED_ATTEMPTS ≤ f then some (now + LOCKOUT_DURATION_SECONDS)
      else s.lockoutUntil }

/-- The `AuthManager._reset_failed_attempts` (lines 157–161). -/
def resetFailedAttempts (_s : AuthState) : AuthState :=
  { failedAttempts := 0, lockoutUntil := none }

/-- The three authentication steps that interact with the rate limiter:
`request_auth_code`, `verify_code`, `get_access_token`. -/
inductive StepKind where
  | requestCode
  | verifyCode
  | getToken
  deriving DecidableEq

/-- Outcome of an authentication step as seen by the caller. -/
inductive StepResult where
  | rateLimited (retryAfter : Nat)
  | failed
  | succeeded
  deriving DecidableEq

/-- One authentication step (`request_auth_code` lines 163–201,
`verify_code` lines 203–246, `get_access_token` lines 248–333).  Each
step first calls `_check_rate_limit`; on an `IS74ApiError` it calls
`_record_failed_attempt` and raises; only `get_access_token` calls
`_reset_failed_attempts` on success (line 322) — the other two steps
leave the counter untouched on success.  `ok` is the oracle for whether
the underlying API call succeeds. -/
def authStep (k : StepKind) (ok : Bool) (now : Nat) (s : AuthState) :
    StepResult × AuthState :=
  match checkRateLimit now s with
  | some r => (.rateLimited r, s)
  | none =>
    if ok then
      match k with
      | .getToken => (.succeeded, resetFailedAttempts s)
      | _ => (.succeeded, s)
    else (.failed, recordFailedAttempt now s)

/-! ## config_manager.py / auto_open_manager.py — auto-open decision -/

/-- The `DayOfWeek` from `config_manager.py` (lines 13–22). -/
inductive DayOfWeek where
  | monday
  | tuesday
  | wednesday
  | thursday
  | friday
  | saturday
  | sunday
  deriving DecidableEq

/-- The `AutoOpenSchedule` (config_manager.py lines 25–38); `time` values are
seconds of the day, compared like Python `datetime.time`. -/
structure AutoOpenSchedule where
  days : List DayOfWeek
  timeStart : Nat
  timeEnd : Nat
  deriving DecidableEq

/-- The `AutoOpenConfig` (config_manager.py lines 69–81). -/
structure AutoOpenConfig where
  enabled : Bool := false
  schedules : List AutoOpenSchedule := []
  deriving DecidableEq

/-- The `AutoOpenManager.should_auto_open` (auto_open_manager.py lines
83–132).  `callDay` and `callTime` are the weekday and the time-of-day
of `call_time` (`_get_day_of_week` / `call_time.time()`).  The loop over
schedules with `continue` is `List.any`. -/
def shouldAutoOpen (config : AutoOpenConfig) (callDay : DayOfWeek)
    (callTime : Nat) : Bool :=
  if !config.enabled then false
  else if config.schedules.isEmpty then true
  else
    config.schedules.any fun s =>
      s.days.contains callDay &&
        (decide (s.timeStart ≤ callTime) && decide (callTime ≤ s.timeEnd))

/-! ## event_manager.py — bounded event log -/

/-- The `EventType` (event_manager.py lines 16–31). -/
inductive EventType where
  | call
  | callReceived
  | doorOpen
  | doorClosed
  | doorLocked
  | doorUnlocked
  | autoOpen
  | callAccepted
  | callEnded
  | streamStarted
  | streamStopped
  | notificationReceived
  | error
  deriving DecidableEq

/-- The `Event` (event_manager.py lines 34–51); `metadata` is the open
key→value map. -/
structure Event where
  id : String
  type : EventType
  deviceId : String
  timestamp : Nat
  metadata : List (String × String) := []
  deriving DecidableEq

/-- The `EventManager.MAX_HISTORY_SIZE` (line 104). -/
def MAX_HISTORY_SIZE : Nat := 100

/-- The history update performed by `EventManager.log_event` (lines
153–160): append, then `self._history = self._history[-max_history:]`
when the length exceeds `max_history`.  A Python slice `[-0:]` is the
whole list, hence the inner `maxHistory = 0` case. -/
def logEvent (maxHistory : Nat) (history : List Event) (e : Event) :
    List Event :=
  if maxHistory < (history ++ [e]).length then
    if maxHistory = 0 then history ++ [e]
    else (history ++ [e]).drop ((history ++ [e]).length - maxHistory)
  else history ++ [e]

/-- The `EventManager.get_history` (lines 178–200):
`self._history[-limit:] if limit < len(self._history) else copy`, then
reversed (most recent first).  A Python slice `[-0:]` is the whole
list, hence the inner `limit = 0` case. -/
def getHistory (limit : Nat) (history : List Event) : List Event :=
  (if limit < history.length then
      if limit = 0 then history else history.drop (history.length - limit)
    else history).reverse

/-! ## device_controller.py — data model and device cache -/

/-- The `DoorLockStatus` (device_controller.py lines 43–50). -/
structure DoorLockStatus where
  deviceId : String
  isLocked : Bool
  timestamp : Nat
  error : Option String := none
  deriving DecidableEq

/-- The `DeviceStatus` (device_controller.py lines 53–60). -/
structure DeviceStatus where
  deviceId : String
  isOnline : Bool
  timestamp : Nat
  lastSeen : Option Nat := none
  deriving DecidableEq

/-- One item of the `/domofon/relays` response (device_controller.py
lines 182–223).  The dict-key fallback chains of the source
(`MAC_ADDR or MAC or mac or id`, `RELAY_TYPE or … or "Unknown"`,
`STATUS_CODE == "0" or STATUS_TEXT == "OK"`, …) are abstracted into the
already-extracted optional field values they produce. -/
structure RawItem where
  mac : Option String
  name : Option String
  relayId : Nat
  relayNum : Nat
  statusOk : Bool
  statusRaw : Option String
  address : Option String
  deriving DecidableEq

/-- The `Device` (device_controller.py lines 15–40), restricted to the
fields the verified operations read. -/
structure Device where
  id : String
  name : String
  relayId : Nat
  relayNum : Nat
  status : String
  address : Option String
  deriving DecidableEq

/-- Construction of one `Device` from a response item
(device_controller.py lines 182–238): items without a MAC are skipped
(lines 221–223). -/
def parseItem (it : RawItem) : Option Device :=
  match it.mac with
  | none => none
  | some mac =>
    some
      { id := mac
        name := it.name.getD "Unknown"
        relayId := it.relayId
        relayNum := it.relayNum
        status := if it.statusOk then "online" else it.statusRaw.getD "unknown"
        address := it.address }

/-- The `for item in device_list` parsing loop (lines 182–238). -/
def parseDevices (l : List RawItem) : List Device :=
  l.filterMap parseItem

/-- Device-cache state of `DeviceController`: `_devices_cache` and
`_cache_timestamp` (lines 108–109). -/
structure DevCacheState where
  cache : Option (List Device)
  cacheTime : Option Nat
  deriving DecidableEq

/-- The two relay lists the vendor can return: `isShared=1` (primary)
and `isShared=0` (secondary fallback). -/
structure FetchEnv where
  primary : List RawItem
  secondary : List RawItem
  deriving DecidableEq

/-- Result of `get_devices`: the returned list, the new cache state and
the number of network (GET `/domofon/relays`) calls performed. -/
structure GetDevicesResult where
  devices : List Device
  state : DevCacheState
  getCalls : Nat
  deriving DecidableEq

/-- The fetch path of `get_devices` (lines 143–249): fetch the primary
list; if it is empty fetch the secondary list; parse the chosen list
and cache it. -/
def fetchDevices (now : Nat) (env : FetchEnv) : GetDevicesResult :=
  let chosen := if env.primary.isEmpty then env.secondary else env.primary
  let calls := if env.primary.isEmpty then 2 else 1
  let devs := parseDevices chosen
  { devices := devs
    state := { cache := some devs, cacheTime := some now }
    getCalls := calls }

/-- The `DeviceController.get_devices` (lines 120–253).  The cache guard is
`if not force_refresh and self._devices_cache and self._cache_timestamp`
followed by `cache_age < 30`; note that an empty cached list is falsy in
Python, so it does not satisfy the guard. -/
def getDevices (force : Bool) (now : Nat) (st : DevCacheState)
    (env : FetchEnv) : GetDevicesResult :=
  match st.cache, st.cacheTime with
  | some ds, some ts =>
    if !force && !ds.isEmpty && now - ts < 30 then
      { devices := ds, state := st, getCalls := 0 }
    else fetchDevices now env
  | _, _ => fetchDevices now env

/-- The `DeviceControlError` (device_controller.py lines 63–70). -/
structure DeviceControlError where
  message : String
  deviceId : Option String := none
  errorCode : Option String := none
  deriving DecidableEq

/-- Result of `open_door`: outcome, new cache state, GET calls made
while resolving the device, POST (door-open) calls made, and the
`DoorLockStatus` transitions published via the status callback. -/
structure OpenDoorResult where
  outcome : Except DeviceControlError Bool
  state : DevCacheState
  getCalls : Nat
  postCalls : Nat
  statuses : List DoorLockStatus

/-- The `DeviceController.open_door` (lines 311–423), without the lock-reset
timer (modelled separately below).  The device is resolved through
`get_device_by_id` → `get_devices` (lines 255–266, 335); a missing
device publishes a locked-with-error status and raises
`DeviceControlError` with code `DEVICE_NOT_FOUND` (lines 336–349)
before the open command is sent.  `postOk` is the oracle for the POST
`/domofon/relays/{relay_id}/open` call. -/
def openDoor (deviceId : String) (now : Nat) (st : DevCacheState)
    (env : FetchEnv) (postOk : Bool) : OpenDoorResult :=
  let r := getDevices false now st env
  let notFoundMsg := "Device not found: " ++ deviceId
  let failMsg := "Failed to open door for device " ++ deviceId
  match r.devices.find? (fun d => d.id = deviceId) with
  | none =>
    { outcome := .error ⟨notFoundMsg, some deviceId, some "DEVICE_NOT_FOUND"⟩
      state := r.state
      getCalls := r.getCalls
      postCalls := 0
      statuses := [⟨deviceId, true, now, some notFoundMsg⟩] }
  | some _ =>
    if postOk then
      { outcome := .ok true
        state := r.state
        getCalls := r.getCalls
        postCalls := 1
        statuses := [⟨deviceId, false, now, none⟩] }
    else
      { outcome := .error ⟨failMsg, some deviceId, some "API_ERROR"⟩
        state := r.state
        getCalls := r.getCalls
        postCalls := 1
        statuses := [⟨deviceId, true, now, some failMsg⟩] }

/-! ## device_controller.py — lock-reset timer

`open_door` cancels any pending `_reset_lock_status` task for the device
and schedules a fresh one that sleeps `LOCK_RESET_DELAY_SECONDS` and
then publishes a locked transition (lines 284–309 and 380–386).  For one
device this is a pending deadline (`Option Nat`) plus the published
transitions; passage of time fires the deadline if it has been
reached. -/

/-- The `DeviceController.LOCK_RESET_DELAY_SECONDS` (line 87). -/
def LOCK_RESET_DELAY_SECONDS : Nat := 5

/-- Per-device lock-reset timer state: the deadline of the pending
`_reset_lock_status` task (if any) and the lock transitions published so
far, oldest first, as (timestamp, is_locked) pairs. -/
structure LockTimerState where
  pending : Option Nat
  published : List (Nat × Bool)
  deriving DecidableEq

/-- Successful `open_door` at time `t`, as it affects the timer and the
status stream (lines 372–386): publish an unlocked transition
synchronously, cancel any pending reset task, schedule a new one for
`t + 5`. -/
def openDoorTimer (t : Nat) (s : LockTimerState) : LockTimerState :=
  { pending := some (t + LOCK_RESET_DELAY_SECONDS)
    published := s.published ++ [(t, false)] }

/-- Passage of time up to `t`: a pending `_reset_lock_status` task whose
deadline has been reached fires (lines 291–300), publishing one locked
transition stamped at its deadline and removing itself. -/
def advanceTimer (t : Nat) (s : LockTimerState) : LockTimerState :=
  match s.pending with
  | some f =>
    if f ≤ t then { pending := none, published := s.published ++ [(f, true)] }
    else s
  | none => s

/-- Events in the life of one device's lock timer. -/
inductive TimerAction where
  | openAt (t : Nat)
  | advanceTo (t : Nat)
  deriving DecidableEq

/-- Run a sequence of timer events from a given state. -/
def runTimer (s : LockTimerState) : List TimerAction → LockTimerState
  | [] => s
  | .openAt t :: rest => runTimer (openDoorTimer t s) rest
  | .advanceTo t :: rest => runTimer (advanceTimer t s) rest

/-- The locked transitions (is_locked = true) among those published. -/
def lockedTransitions (s : LockTimerState) : List (Nat × Bool) :=
  s.published.filter fun p => p.2 = true

/-! ## device_controller.py — online/offline monitor -/

/-- The `DeviceController.CONNECTION_TIMEOUT_SECONDS` (line 88). -/
def CONNECTION_TIMEOUT_SECONDS : Nat := 30

/-- Lookup in an insertion-ordered dict modelled as an association
list. -/
def lookupAssoc {α : Type} (k : String) : List (String × α) → Option α
  | [] => none
  | (k2, v) :: rest => if k2 = k then some v else lookupAssoc k rest

/-- The assignment `dict[k] = v` on an insertion-ordered dict: replace the first
binding of `k`, or append a new one. -/
def setAssoc {α : Type} (k : String) (v : α) :
    List (String × α) → List (String × α)
  | [] => [(k, v)]
  | (k2, v2) :: rest =>
    if k2 = k then (k2, v) :: rest else (k2, v2) :: setAssoc k v rest

/-- Monitor state of `DeviceController`: `_device_status`,
`_last_successful_connection` (lines 113–114) and the `DeviceStatus`
transitions published via `_notify_device_status_change`, oldest
first. -/
structure MonitorState where
  deviceStatus : List (String × DeviceStatus)
  lastSeen : List (String × Nat)
  published : List DeviceStatus
  deriving DecidableEq

/-- The `DeviceController.update_device_status` (lines 454–498): compute
`status_changed` from the old entry, store the new `DeviceStatus`,
update `_last_successful_connection` when online, and notify only when
the status changed (edge-triggered). -/
def updateDeviceStatus (d : String) (isOnline : Bool) (now : Nat)
    (s : MonitorState) : MonitorState :=
  let current := lookupAssoc d s.deviceStatus
  let statusChanged :=
    match current with
    | none => true
    | some st => st.isOnline ≠ isOnline
  let newStatus : DeviceStatus :=
    { deviceId := d, isOnline := isOnline, timestamp := now
      lastSeen := lookupAssoc d s.lastSeen }
  let s1 := { s with deviceStatus := setAssoc d newStatus s.deviceStatus }
  let s2 := if isOnline then { s1 with lastSeen := setAssoc d now s1.lastSeen } else s1
  if statusChanged then { s2 with published := s2.published ++ [newStatus] } else s2

/-- The body of one item of the monitor loop in
`_check_device_connections` (lines 516–529): if the device has not been
seen for more than 30 s and is currently marked online, mark it
offline. -/
def checkOneDevice (now : Nat) (s : MonitorState) (entry : String × Nat) :
    MonitorState :=
  if CONNECTION_TIMEOUT_SECONDS < now - entry.2 then
    match lookupAssoc entry.1 s.deviceStatus with
    | some st => if st.isOnline then updateDeviceStatus entry.1 false now s else s
    | none => s
  else s

/-- One tick of `_check_device_connections` (lines 511–529): iterate
over a snapshot of `_last_successful_connection` (which offline updates
do not modify). -/
def checkTick (now : Nat) (s : MonitorState) : MonitorState :=
  s.lastSeen.foldl (checkOneDevice now) s

/-- The transitions published for one device. -/
def publishedFor (d : String) (s : MonitorState) : List DeviceStatus :=
  s.published.filter fun st => st.deviceId = d

/-! ## api_client.py — transport retry policy

`_request` (lines 172–232) is decorated with
`tenacity.retry(stop=stop_after_attempt(3), wait=wait_exponential(...),
retry=retry_if_exception_type((httpx.TimeoutException,
httpx.NetworkError)), reraise=True)`.  The decorator retries only when
the exception escaping the function body is one of the two raw `httpx`
exception types; the body itself, however, catches both (lines 222–227)
and re-raises them wrapped as `IS74ApiError`. -/

/-- What the underlying `httpx` call does on one attempt. -/
inductive AttemptOutcome where
  | timeout
  | networkError
  | httpResponse (status : Nat) (body : String)
  deriving DecidableEq

/-- Why an `IS74ApiError` was raised. -/
inductive ApiErrorKind where
  | timeout
  | network
  | http
  deriving DecidableEq

/-- The `IS74ApiError` (api_client.py lines 21–28). -/
structure ApiError where
  kind : ApiErrorKind
  statusCode : Option Nat := none
  responseBody : Option String := none
  deriving DecidableEq

/-- The exception types that can propagate out of the decorated
function body. -/
inductive Exn where
  | httpxTimeout
  | httpxNetwork
  | is74ApiError (e : ApiError)
  deriving DecidableEq

/-- A successful HTTP response. -/
structure Resp where
  status : Nat
  body : String
  deriving DecidableEq

/-- The `retry_if_exception_type((httpx.TimeoutException,
httpx.NetworkError))` (line 175): retry exactly when the exception that
escaped the body is one of the two raw httpx types. -/
def retryOn : Exn → Bool
  | .httpxTimeout => true
  | .httpxNetwork => true
  | .is74ApiError _ => false

/-- The body of `_request` for one attempt (lines 202–232): an HTTP
status ≥ 400 raises `IS74ApiError` carrying the status code and the
parsed-or-raw body (lines 207–218); `httpx.TimeoutException` and
`httpx.NetworkError` are caught and re-raised as `IS74ApiError`
(lines 222–227), so no raw httpx exception ever escapes the body. -/
def requestBody (o : AttemptOutcome) : Except Exn Resp :=
  match o with
  | .timeout => .error (.is74ApiError ⟨.timeout, none, none⟩)
  | .networkError => .error (.is74ApiError ⟨.network, none, none⟩)
  | .httpResponse st b =>
    if 400 ≤ st then .error (.is74ApiError ⟨.http, some st, some b⟩)
    else .ok ⟨st, b⟩

/-- The tenacity attempt loop with `stop_after_attempt` and `reraise`:
run the body; on an exception matching the retry predicate, retry while
attempts remain, otherwise re-raise immediately.  Returns the final
outcome and the number of attempts actually made.  `outcomes` feeds one
`AttemptOutcome` per attempt. -/
def retryLoop (pred : Exn → Bool) (o : AttemptOutcome)
    (rest : List AttemptOutcome) (attemptsLeft : Nat) :
    Except Exn Resp × Nat :=
  match requestBody o with
  | .ok r => (.ok r, 1)
  | .error e =>
    if pred e then
      match attemptsLeft, rest with
      | left + 1, o2 :: os =>
        let r := retryLoop pred o2 os left
        (r.1, r.2 + 1)
      | _, _ => (.error e, 1)
    else (.error e, 1)

/-- The decorated `_request` with `stop_after_attempt(3)`: at most two
retries after the first attempt. -/
def transportRequest (o : AttemptOutcome) (rest : List AttemptOutcome) :
    Except Exn Resp × Nat :=
  retryLoop retryOn o rest 2

/-! ## api_client.py — sensitive-data masking

`SENSITIVE_PATTERNS` (lines 39–49) is an ordered list of compiled
regexes with replacement strings; `_mask_sensitive_data` (lines 94–107)
applies each `pattern.sub(replacement, masked)` in order.  Each regex is
deterministic (no backtracking is ever needed: `\s*` never eats `:` or
quote characters, `[^"]*` stops exactly at the next quote, and the
Bearer character class excludes whitespace and `=`), so each is embedded
as a direct matcher on `List Char` that returns the suffix after the
match.  `applySub` reproduces `re.sub`: scan left to right, replace the
leftmost match, continue scanning after it (never inside the
replacement). -/

/-- Python `\s` for the ASCII range: space, `\t`, `\n`, `\r`, `\x0b`,
`\x0c`. -/
def isWsChar (c : Char) : Bool :=
  c = ' ' || c = '\t' || c = '\n' || c = '\r' || c = '\x0b' || c = '\x0c'

/-- Strip a literal character sequence, returning the suffix after it. -/
def dropLit : List Char → List Char → Option (List Char)
  | [], s => some s
  | _ :: _, [] => none
  | l :: ls, c :: cs => if c = l then dropLit ls cs else none

/-- Anchored match of `"key"\s*:\s*"[^"]*"` at the head of `s`,
returning the suffix after the match. -/
def matchQuoted (key : List Char) (s : List Char) : Option (List Char) := do
  let s1 ← dropLit ('"' :: (key ++ ['"'])) s
  let s2 := s1.dropWhile isWsChar
  let s3 ← dropLit [':'] s2
  let s4 := s3.dropWhile isWsChar
  let s5 ← dropLit ['"'] s4
  let s6 := s5.dropWhile fun c => !(c = '"')
  dropLit ['"'] s6

/-- The character class `[A-Za-z0-9\-._~+/]` of the Bearer pattern. -/
def isBearerTokenChar (c : Char) : Bool :=
  c.isAlphanum || c = '-' || c = '.' || c = '_' || c = '~' || c = '+' || c = '/'

/-- Anchored match of `Bearer\s+[A-Za-z0-9\-._~+/]+=*` at the head of
`s`, returning the suffix after the match. -/
def matchBearer (s : List Char) : Option (List Char) := do
  let s1 ← dropLit ("Bearer".toList) s
  match s1 with
  | [] => none
  | c :: rest =>
    if isWsChar c then
      let s2 := rest.dropWhile isWsChar
      match s2 with
      | [] => none
      | d :: r2 =>
        if isBearerTokenChar d then
          let r3 := r2.dropWhile isBearerTokenChar
          some (r3.dropWhile fun e => e = '=')
        else none
    else none

/-- The `pattern.sub(replacement, text)` with explicit fuel: replace the
leftmost match, resume scanning after the matched span of the input
(the replacement text itself is never rescanned).  One unit of fuel is
spent per scan step; every matcher used below consumes at least one
input character per match, so the input length bounds the number of
steps and the fuel case is never reached from `applySub`. -/
def applySubFuel (m : List Char → Option (List Char)) (repl : List Char) :
    Nat → List Char → List Char
  | _, [] => []
  | 0, s => s
  | fuel + 1, c :: rest =>
    match m (c :: rest) with
    | some rest2 => repl ++ applySubFuel m repl fuel rest2
    | none => c :: applySubFuel m repl fuel rest

/-- The `pattern.sub(replacement, text)`. -/
def applySub (m : List Char → Option (List Char)) (repl : List Char)
    (s : List Char) : List Char :=
  applySubFuel m repl s.length s

/-- The literal `***MASKED***`. -/
def maskedVal : List Char := "***MASKED***".toList

/-- Replacement string `"key": "***MASKED***"` for a quoted-key
pattern. -/
def replQuoted (key : List Char) : List Char :=
  '"' :: (key ++ ['"', ':', ' ', '"'] ++ maskedVal ++ ['"'])

/-- Replacement string `Bearer ***MASKED***`. -/
def replBearer : List Char := "Bearer ***MASKED***".toList

/-- The `IS74ApiClient.SENSITIVE_PATTERNS` (lines 39–49), in source
order. -/
def sensitiveSubs : List ((List Char → Option (List Char)) × List Char) :=
  [ (matchQuoted ("TOKEN".toList), replQuoted ("TOKEN".toList)),
    (matchQuoted ("PASSWORD".toList), replQuoted ("PASSWORD".toList)),
    (matchQuoted ("password".toList), replQuoted ("password".toList)),
    (matchQuoted ("phone".toList), replQuoted ("phone".toList)),
    (matchQuoted ("code".toList), replQuoted ("code".toList)),
    (matchQuoted ("access_token".toList), replQuoted ("access_token".toList)),
    (matchQuoted ("firebase_token".toList), replQuoted ("firebase_token".toList)),
    (matchBearer, replBearer),
    (matchQuoted ("authid".toList), replQuoted ("authid".toList)) ]

/-- The `IS74ApiClient._mask_sensitive_data` (lines 94–107): apply every
pattern substitution in order. -/
def maskSensitiveData (s : List Char) : List Char :=
  sensitiveSubs.foldl (fun acc pr => applySub pr.1 pr.2 acc) s

/-- Does `p` occur as a contiguous substring of the argument? -/
def occursIn (p : List Char) : List Char → Bool
  | [] => p.isEmpty
  | c :: rest => (dropLit p (c :: rest)).isSome || occursIn p rest

/-- The literal `"key"` that every match of a quoted-key pattern must
start with. -/
def quotedTrigger (key : List Char) : List Char :=
  '"' :: (key ++ ['"'])

/-- One trigger literal per sensitive pattern: a string containing none
of these cannot match any pattern. -/
def maskTriggers : List (List Char) :=
  [ quotedTrigger ("TOKEN".toList),
    quotedTrigger ("PASSWORD".toList),
    quotedTrigger ("password".toList),
    quotedTrigger ("phone".toList),
    quotedTrigger ("code".toList),
    quotedTrigger ("access_token".toList),
    quotedTrigger ("firebase_token".toList),
    "Bearer".toList,
    quotedTrigger ("authid".toList) ]

/-- The cache guard of `get_devices` (device_controller.py lines
136–141): not forced, a truthy (non-empty) cached list, a cache
timestamp, and an age under 30 s. -/
def cacheHit (force : Bool) (now : Nat) (st : DevCacheState) : Bool :=
  match st.cache, st.cacheTime with
  | some ds, some ts => !force && !ds.isEmpty && now - ts < 30
  | _, _ => false

end IS74

namespace IS74

/-! ## Helper lemmas -/

/-- On a cache hit (non-empty cached list, timestamp, age under 30 s,
not forced) `get_devices` returns the cached list without network
calls. -/
theorem getDevices_cacheHit_eq (force : Bool) (now : Nat)
    (st : DevCacheState) (env : FetchEnv) (ds : List Device)
    (hds : st.cache = some ds) (hhit : cacheHit force now st = true) :
    getDevices force now st env = ⟨ds, st, 0⟩ := by
  obtain ⟨c, ct⟩ := st
  have hc : c = some ds := hds
  subst hc
  cases ct with
  | none => simp [cacheHit] at hhit
  | some ts =>
    simp only [cacheHit] at hhit
    simp [getDevices, hhit]

/-- Lookup of `d` in a list that reaches `(d, v)` after keys all
different from `d`. -/
theorem lookupAssoc_split {α : Type} (d : String) (v : α)
    (l1 l2 : List (String × α)) (hl1 : ∀ e ∈ l1, e.1 ≠ d) :
    lookupAssoc d (l1 ++ (d, v) :: l2) = some v := by
  induction l1 with
  | nil => simp [lookupAssoc]
  | cons a l ih =>
    have ha : a.1 ≠ d := hl1 a (by simp)
    obtain ⟨k, w⟩ := a
    simp only [List.cons_append, lookupAssoc]
    rw [if_neg (by simpa using ha)]
    exact ih fun e he => hl1 e (by simp [he])

/-- The `setAssoc` then lookup at the same key. -/
theorem lookupAssoc_setAssoc_self {α : Type} (k : String) (v : α)
    (l : List (String × α)) :
    lookupAssoc k (setAssoc k v l) = some v := by
  induction l with
  | nil => simp [setAssoc, lookupAssoc]
  | cons a l ih =>
    obtain ⟨k2, w⟩ := a
    by_cases hk : k2 = k
    · simp [setAssoc, hk, lookupAssoc]
    · simp only [setAssoc, if_neg hk, lookupAssoc]
      exact ih

/-- The `setAssoc` at another key does not change a lookup. -/
theorem lookupAssoc_setAssoc_ne {α : Type} (k k2 : String) (v : α)
    (l : List (String × α)) (hne : k2 ≠ k) :
    lookupAssoc k (setAssoc k2 v l) = lookupAssoc k l := by
  induction l with
  | nil => simp [setAssoc, lookupAssoc, hne]
  | cons a l ih =>
    obtain ⟨k3, w⟩ := a
    by_cases hk : k3 = k2
    · subst hk
      simp only [setAssoc, if_pos rfl, lookupAssoc]
      rw [if_neg hne, if_neg hne]
    · simp only [setAssoc, if_neg hk, lookupAssoc]
      by_cases hk3 : k3 = k
      · rw [if_pos hk3, if_pos hk3]
      · rw [if_neg hk3, if_neg hk3]
        exact ih

/-- The `update_device_status` with `is_online = False` leaves
`_last_successful_connection` unchanged. -/
theorem updateDeviceStatus_offline_lastSeen (d : String) (now : Nat)
    (s : MonitorState) :
    (updateDeviceStatus d false now s).lastSeen = s.lastSeen := by
  unfold updateDeviceStatus
  cases hcur : lookupAssoc d s.deviceStatus with
  | none => simp [hcur]
  | some st => cases hon : st.isOnline <;> simp [hcur, hon]

/-- The `update_device_status` on another device `d2` neither changes the
lookup of `d`'s status nor publishes anything for `d`. -/
theorem updateDeviceStatus_other (d d2 : String) (b : Bool) (now : Nat)
    (s : MonitorState) (hne : d2 ≠ d) :
    lookupAssoc d (updateDeviceStatus d2 b now s).deviceStatus =
      lookupAssoc d s.deviceStatus ∧
    publishedFor d (updateDeviceStatus d2 b now s) = publishedFor d s := by
  unfold updateDeviceStatus publishedFor
  cases hcur : lookupAssoc d2 s.deviceStatus with
  | none =>
    cases b <;>
      simp [hcur, lookupAssoc_setAssoc_ne d d2 _ _ hne, List.filter_append,
        List.filter, hne]
  | some st =>
    cases b <;> cases hon : st.isOnline <;>
      simp [hcur, hon, lookupAssoc_setAssoc_ne d d2 _ _ hne,
        List.filter_append, List.filter, hne]

/-- The `update_device_status` marking a currently-online `d` offline:
publishes exactly one offline transition for `d`, stores the offline
status, and leaves `_last_successful_connection` unchanged. -/
theorem updateDeviceStatus_to_offline (d : String) (now : Nat)
    (s : MonitorState) (st0 : DeviceStatus)
    (hcur : lookupAssoc d s.deviceStatus = some st0)
    (hon : st0.isOnline = true) :
    lookupAssoc d (updateDeviceStatus d false now s).deviceStatus =
      some ⟨d, false, now, lookupAssoc d s.lastSeen⟩ ∧
    publishedFor d (updateDeviceStatus d false now s) =
      publishedFor d s ++ [⟨d, false, now, lookupAssoc d s.lastSeen⟩] ∧
    (updateDeviceStatus d false now s).lastSeen = s.lastSeen := by
  unfold updateDeviceStatus publishedFor
  rw [hcur]
  simp [hon, lookupAssoc_setAssoc_self, List.filter_append, List.filter]

/-- The `update_device_status` marking a currently-offline `d` online:
publishes exactly one online transition for `d`. -/
theorem updateDeviceStatus_to_online (d : String) (now : Nat)
    (s : MonitorState) (st0 : DeviceStatus)
    (hcur : lookupAssoc d s.deviceStatus = some st0)
    (hoff : st0.isOnline = false) :
    publishedFor d (updateDeviceStatus d true now s) =
      publishedFor d s ++ [⟨d, true, now, lookupAssoc d s.lastSeen⟩] := by
  unfold updateDeviceStatus publishedFor
  rw [hcur]
  simp [hoff, List.filter_append, List.filter]

/-- One monitor-loop item never changes `_last_successful_connection`. -/
theorem checkOneDevice_lastSeen (now : Nat) (s : MonitorState)
    (e : String × Nat) :
    (checkOneDevice now s e).lastSeen = s.lastSeen := by
  unfold checkOneDevice
  by_cases hstale : CONNECTION_TIMEOUT_SECONDS < now - e.2
  · rw [if_pos hstale]
    cases hl : lookupAssoc e.1 s.deviceStatus with
    | none => rfl
    | some st =>
      by_cases hon : st.isOnline = true
      · simp only [hon, if_true]
        exact updateDeviceStatus_offline_lastSeen e.1 now s
      · have : st.isOnline = false := by
          cases h2 : st.isOnline
          · rfl
          · exact absurd h2 hon
        simp [this]
  · rw [if_neg hstale]

/-- One monitor-loop item for another device preserves `d`'s status
lookup and publishes nothing for `d`. -/
theorem checkOneDevice_other (now : Nat) (s : MonitorState)
    (e : String × Nat) (d : String) (hne : e.1 ≠ d) :
    lookupAssoc d (checkOneDevice now s e).deviceStatus =
      lookupAssoc d s.deviceStatus ∧
    publishedFor d (checkOneDevice now s e) = publishedFor d s := by
  unfold checkOneDevice
  by_cases hstale : CONNECTION_TIMEOUT_SECONDS < now - e.2
  · rw [if_pos hstale]
    cases hl : lookupAssoc e.1 s.deviceStatus with
    | none => exact ⟨rfl, rfl⟩
    | some st =>
      by_cases hon : st.isOnline = true
      · simp only [hon, if_true]
        exact updateDeviceStatus_other d e.1 false now s hne
      · have hoff : st.isOnline = false := by
          cases h2 : st.isOnline
          · rfl
          · exact absurd h2 hon
        simp [hoff]
  · rw [if_neg hstale]
    exact ⟨rfl, rfl⟩

/-- One monitor-loop item while `d` is already offline: `d`'s status is
untouched and nothing is published for `d` (for any entry, `d`'s own
included). -/
theorem checkOneDevice_offlineFixed (now : Nat) (s : MonitorState)
    (e : String × Nat) (d : String) (st0 : DeviceStatus)
    (hcur : lookupAssoc d s.deviceStatus = some st0)
    (hoff : st0.isOnline = false) :
    lookupAssoc d (checkOneDevice now s e).deviceStatus = some st0 ∧
    publishedFor d (checkOneDevice now s e) = publishedFor d s := by
  by_cases hne : e.1 = d
  · unfold checkOneDevice
    rw [hne]
    by_cases hstale : CONNECTION_TIMEOUT_SECONDS < now - e.2
    · rw [if_pos hstale, hcur]
      simp [hoff, hcur]
    · rw [if_neg hstale]
      exact ⟨hcur, rfl⟩
  · have h := checkOneDevice_other now s e d hne
    exact ⟨h.1.trans hcur, h.2⟩

/-- The monitor-loop item for a stale, currently-online device is
exactly `update_device_status(d, False)`. -/
theorem checkOneDevice_fire (now : Nat) (s : MonitorState) (d : String)
    (last : Nat) (st0 : DeviceStatus)
    (hstale : CONNECTION_TIMEOUT_SECONDS < now - last)
    (hcur : lookupAssoc d s.deviceStatus = some st0)
    (hon : st0.isOnline = true) :
    checkOneDevice now s (d, last) = updateDeviceStatus d false now s := by
  simp only [checkOneDevice]
  rw [if_pos hstale, hcur]
  simp [hon]

/-- Folding the monitor loop over entries whose keys avoid `d`
preserves `d`'s status lookup, `d`'s published transitions and the
whole `_last_successful_connection` map. -/
theorem foldl_checkOneDevice_other (now : Nat) (d : String) :
    ∀ (l : List (String × Nat)) (s : MonitorState),
      (∀ e ∈ l, e.1 ≠ d) →
      lookupAssoc d (l.foldl (checkOneDevice now) s).deviceStatus =
        lookupAssoc d s.deviceStatus ∧
      publishedFor d (l.foldl (checkOneDevice now) s) = publishedFor d s ∧
      (l.foldl (checkOneDevice now) s).lastSeen = s.lastSeen := by
  intro l
  induction l with
  | nil => intro s _; exact ⟨rfl, rfl, rfl⟩
  | cons a l ih =>
    intro s hl
    have ha : a.1 ≠ d := hl a (by simp)
    have hstep := checkOneDevice_other now s a d ha
    have hrest := ih (checkOneDevice now s a) fun e he => hl e (by simp [he])
    refine ⟨?_, ?_, ?_⟩
    · rw [List.foldl_cons, hrest.1, hstep.1]
    · rw [List.foldl_cons, hrest.2.1, hstep.2]
    · rw [List.foldl_cons, hrest.2.2, checkOneDevice_lastSeen]

/-- Folding the monitor loop over any entries while `d` is already
offline preserves `d`'s status lookup, publishes nothing for `d`, and
keeps `_last_successful_connection`. -/
theorem foldl_checkOneDevice_offlineFixed (now : Nat) (d : String)
    (st0 : DeviceStatus) (hoff : st0.isOnline = false) :
    ∀ (l : List (String × Nat)) (s : MonitorState),
      lookupAssoc d s.deviceStatus = some st0 →
      lookupAssoc d (l.foldl (checkOneDevice now) s).deviceStatus = some st0 ∧
      publishedFor d (l.foldl (checkOneDevice now) s) = publishedFor d s ∧
      (l.foldl (checkOneDevice now) s).lastSeen = s.lastSeen := by
  intro l
  induction l with
  | nil => intro s hcur; exact ⟨hcur, rfl, rfl⟩
  | cons a l ih =>
    intro s hcur
    have hstep := checkOneDevice_offlineFixed now s a d st0 hcur hoff
    have hrest := ih (checkOneDevice now s a) hstep.1
    refine ⟨hrest.1, ?_, ?_⟩
    · rw [List.foldl_cons] at *
      rw [hrest.2.1, hstep.2]
    · rw [List.foldl_cons] at *
      rw [hrest.2.2, checkOneDevice_lastSeen]

/-- Any successful `matchQuoted key` match starts with the literal
`"key"`. -/
theorem matchQuoted_isSome (key : List Char) (t r : List Char)
    (h : matchQuoted key t = some r) :
    (dropLit (quotedTrigger key) t).isSome = true := by
  unfold matchQuoted at h
  cases h1 : dropLit ('"' :: (key ++ ['"'])) t with
  | none => rw [h1] at h; simp at h
  | some s1 => simp [quotedTrigger, h1]

/-- Any successful `matchBearer` match starts with the literal
`Bearer`. -/
theorem matchBearer_isSome (t r : List Char)
    (h : matchBearer t = some r) :
    (dropLit ("Bearer".toList) t).isSome = true := by
  unfold matchBearer at h
  cases h1 : dropLit ("Bearer".toList) t with
  | none => rw [h1] at h; simp at h
  | some s1 => simp [h1]

/-- A substitution whose matches must start with the literal `P` is the
identity on strings in which `P` never occurs, for any fuel. -/
theorem applySubFuel_no_occurrence
    (m : List Char → Option (List Char)) (repl : List Char) (P : List Char)
    (hm : ∀ t r, m t = some r → (dropLit P t).isSome = true) :
    ∀ (fuel : Nat) (s : List Char), occursIn P s = false →
      applySubFuel m repl fuel s = s := by
  intro fuel
  induction fuel with
  | zero => intro s _; cases s <;> rfl
  | succ f ih =>
    intro s hno
    cases s with
    | nil => rfl
    | cons c rest =>
      have hsplit : (dropLit P (c :: rest)).isSome = false ∧
          occursIn P rest = false := by
        unfold occursIn at hno
        constructor
        · cases hd : (dropLit P (c :: rest)).isSome
          · rfl
          · rw [hd] at hno; simp at hno
        · cases ho : occursIn P rest
          · rfl
          · rw [ho] at hno; simp at hno
      have hm2 : m (c :: rest) = none := by
        cases hmc : m (c :: rest) with
        | none => rfl
        | some r =>
          have := hm (c :: rest) r hmc
          rw [this] at hsplit
          exact absurd hsplit.1 (by simp)
      rw [applySubFuel, hm2]
      rw [ih rest hsplit.2]

/-- A substitution whose matches must start with the literal `P` is the
identity on strings in which `P` never occurs. -/
theorem applySub_no_occurrence
    (m : List Char → Option (List Char)) (repl : List Char) (P : List Char)
    (hm : ∀ t r, m t = some r → (dropLit P t).isSome = true)
    (s : List Char) (hno : occursIn P s = false) :
    applySub m repl s = s :=
  applySubFuel_no_occurrence m repl P hm s.length s hno

/-! ## Claim theorems -/

/-- Claim C2: for every `TokenSet` and every moment `now`,
`is_expired` returns true exactly when `now ≥ expires_at`; equivalently
the access token is valid exactly when `now < expires_at`. -/
theorem c2_is_expired_iff (now : Nat) (t : TokenSet) :
    (TokenSet.isExpired now t = true ↔ t.expiresAt ≤ now) ∧
    (TokenSet.isExpired now t = false ↔ now < t.expiresAt) := by
  constructor
  · simp [TokenSet.isExpired]
  · simp [TokenSet.isExpired]

/-- Claim C5: `should_auto_open` is false when disabled; true
unconditionally when enabled with no schedules; otherwise true exactly
when some schedule contains the call's weekday and its time-of-day lies
in the inclusive window `[time_start, time_end]`. -/
theorem c5_should_auto_open_iff (c : AutoOpenConfig) (d : DayOfWeek) (t : Nat) :
    shouldAutoOpen c d t = true ↔
      c.enabled = true ∧
        (c.schedules = [] ∨
          ∃ s ∈ c.schedules, d ∈ s.days ∧ s.timeStart ≤ t ∧ t ≤ s.timeEnd) := by
  unfold shouldAutoOpen
  cases he : c.enabled with
  | false => simp [he]
  | true =>
    cases hs : c.schedules with
    | nil => simp [hs]
    | cons a l =>
      simp [hs, List.any_eq_true, List.contains, List.elem_iff]

/-- Claim C7 (failing-input evaluation): a timeout on the first attempt
is surfaced as an `IS74ApiError` after exactly one attempt — the
tenacity retry predicate matches only raw httpx exceptions, which the
body of `_request` never lets escape, so the configured retry never
happens even though a second attempt would have succeeded.  An HTTP
status ≥ 400 is likewise surfaced immediately (after one attempt) as a
typed error carrying the status code and body, which is the behaviour
the claim correctly describes for that case. -/
theorem c7_transport_never_retries :
    transportRequest .timeout [.httpResponse 200 "ok"] =
      (.error (.is74ApiError ⟨.timeout, none, none⟩), 1) ∧
    transportRequest .networkError [.httpResponse 200 "ok"] =
      (.error (.is74ApiError ⟨.network, none, none⟩), 1) ∧
    transportRequest (.httpResponse 500 "boom") [.httpResponse 200 "ok"] =
      (.error (.is74ApiError ⟨.http, some 500, some "boom"⟩), 1) ∧
    retryOn (.is74ApiError ⟨.timeout, none, none⟩) = false := by
  refine ⟨rfl, rfl, rfl, rfl⟩

/-- Claim C1 (counterexample): a successful `request_auth_code` step
does not reset the failure counter — from a state with two recorded
failures, a successful code-request leaves the counter at 2, not 0.
Only `get_access_token` calls `_reset_failed_attempts` on success. -/
theorem c1_success_does_not_reset_counterexample :
    (authStep .requestCode true 7 ⟨2, none⟩).2.failedAttempts ≠ 0 := by
  decide

/-- Claim C1 (amended): each failed authentication step increments the
shared failure counter; the failure that brings it to 3 starts a 300 s
lockout; during the lockout every authentication call fails fast with a
`RateLimitError` whose `retry_after` is the exact remaining time and
lies in (0, 300]; only a successful get-token step resets the counter
and clears the lockout (successful request-code and verify-code steps
leave the counter unchanged); once the 300 s have elapsed the limiter
rejects nothing. -/
theorem c1_rate_limiter_amended (s : AuthState) (k : StepKind) (ok : Bool)
    (now t0 : Nat) :
    (checkRateLimit now s = none →
      (authStep k false now s).2.failedAttempts = s.failedAttempts + 1) ∧
    (checkRateLimit now s = none → s.failedAttempts = 2 →
      (authStep k false now s).2.lockoutUntil =
        some (now + LOCKOUT_DURATION_SECONDS)) ∧
    (s.lockoutUntil = some (t0 + LOCKOUT_DURATION_SECONDS) → t0 ≤ now →
      now < t0 + LOCKOUT_DURATION_SECONDS →
      authStep k ok now s =
        (.rateLimited (t0 + LOCKOUT_DURATION_SECONDS - now), s) ∧
      0 < t0 + LOCKOUT_DURATION_SECONDS - now ∧
      t0 + LOCKOUT_DURATION_SECONDS - now ≤ LOCKOUT_DURATION_SECONDS) ∧
    (checkRateLimit now s = none →
      (authStep .getToken true now s).2 = ⟨0, none⟩) ∧
    (s.lockoutUntil = some t0 → t0 ≤ now → checkRateLimit now s = none) := by
  refine ⟨?_, ?_, ?_, ?_, ?_⟩
  · intro hnone
    simp [authStep, hnone, recordFailedAttempt]
  · intro hnone h2
    simp [authStep, hnone, recordFailedAttempt, h2, MAX_FAILED_ATTEMPTS]
  · intro hlock hle hlt
    have hchk : checkRateLimit now s =
        some (t0 + LOCKOUT_DURATION_SECONDS - now) := by
      simp [checkRateLimit, hlock, hlt]
    refine ⟨?_, ?_, ?_⟩
    · simp [authStep, hchk]
    · omega
    · omega
  · intro hnone
    simp [authStep, hnone, resetFailedAttempts]
  · intro hlock hle
    simp [checkRateLimit, hlock]
    omega

/-- Witness for `c1_rate_limiter_amended` at a clean state,
`now = 10`, `t0 = 0`. -/
theorem c1_rate_limiter_amended_witness :
    checkRateLimit 10 ⟨0, none⟩ = none ∧
    (authStep .verifyCode false 10 ⟨0, none⟩).2.failedAttempts = 0 + 1 ∧
    (authStep .getToken true 10 ⟨0, none⟩).2 = (⟨0, none⟩ : AuthState) := by
  have h := c1_rate_limiter_amended ⟨0, none⟩ .verifyCode true 10 0
  have hnone : checkRateLimit 10 (⟨0, none⟩ : AuthState) = none := by decide
  refine ⟨hnone, h.1 hnone, ?_⟩
  have h2 := c1_rate_limiter_amended ⟨0, none⟩ .getToken true 10 0
  exact h2.2.2.2.1 hnone

/-- Claim C6 (counterexample): `get_history(0)` does not return at most
0 entries — the Python slice `self._history[-0:]` is the whole list, so
with two stored events the call returns both of them. -/
theorem c6_history_limit_zero_counterexample :
    ¬ ((getHistory 0 [⟨"e1", .call, "dA", 1, []⟩, ⟨"e2", .doorOpen, "dB", 2, []⟩]).length ≤ 0) := by
  decide

/-- Claim C6 (amended): logging appends the event and keeps only the
most recent 100 entries, so the stored history never exceeds 100; for
every limit ≥ 1, `get_history(limit)` returns the last `limit` entries
most-recent-first (hence at most `limit` of them) — at `limit = 0` it
instead returns the entire history. -/
theorem c6_event_log_amended (h : List Event) (e : Event) (limit : Nat) :
    logEvent MAX_HISTORY_SIZE h e =
      (h ++ [e]).drop (h.length + 1 - MAX_HISTORY_SIZE) ∧
    (logEvent MAX_HISTORY_SIZE h e).length ≤ MAX_HISTORY_SIZE ∧
    (1 ≤ limit →
      (getHistory limit h).length ≤ limit ∧
      getHistory limit h = (h.drop (h.length - limit)).reverse) := by
  have hlen : (h ++ [e]).length = h.length + 1 := by simp
  have hdrop : logEvent MAX_HISTORY_SIZE h e =
      (h ++ [e]).drop (h.length + 1 - MAX_HISTORY_SIZE) := by
    unfold logEvent
    rw [hlen]
    by_cases hc : MAX_HISTORY_SIZE < h.length + 1
    · rw [if_pos hc]
      have hz : ¬ (MAX_HISTORY_SIZE = 0) := by simp [MAX_HISTORY_SIZE]
      rw [if_neg hz]
    · rw [if_neg hc]
      have hz : h.length + 1 - MAX_HISTORY_SIZE = 0 := by omega
      rw [hz, List.drop_zero]
  refine ⟨hdrop, ?_, ?_⟩
  · rw [hdrop]
    rw [List.length_drop, hlen]
    simp [MAX_HISTORY_SIZE]
    omega
  · intro hpos
    have hz : ¬ (limit = 0) := by omega
    constructor
    · unfold getHistory
      by_cases hc : limit < h.length
      · rw [if_pos hc, if_neg hz]
        simp [List.length_drop]
        omega
      · rw [if_neg hc]
        simp
        omega
    · unfold getHistory
      by_cases hc : limit < h.length
      · rw [if_pos hc, if_neg hz]
      · rw [if_neg hc]
        have : h.length - limit = 0 := by omega
        rw [this, List.drop_zero]

/-- Witness for `c6_event_log_amended` at a two-event history and
`limit = 1`. -/
theorem c6_event_log_amended_witness :
    (logEvent MAX_HISTORY_SIZE [⟨"w1", .call, "dA", 1, []⟩] ⟨"w2", .doorOpen, "dB", 2, []⟩).length ≤ MAX_HISTORY_SIZE ∧
    (getHistory 1 [⟨"w1", .call, "dA", 1, []⟩, ⟨"w2", .doorOpen, "dB", 2, []⟩]).length ≤ 1 := by
  have h := c6_event_log_amended [⟨"w1", .call, "dA", 1, []⟩]
    ⟨"w2", .doorOpen, "dB", 2, []⟩ 1
  have h2 := c6_event_log_amended [⟨"w1", .call, "dA", 1, []⟩, ⟨"w2", .doorOpen, "dB", 2, []⟩]
    ⟨"w2", .doorOpen, "dB", 2, []⟩ 1
  exact ⟨h.2.1, (h2.2.2 (by decide)).1⟩

/-- Claim C9 (counterexample): with an empty cached list only 0 seconds
old and `force` unset, `get_devices` does not return the cached (empty)
list — an empty list is falsy in Python, so the guard fails and a fresh
fetch of the primary list is returned instead. -/
theorem c9_empty_fresh_cache_counterexample :
    (getDevices false 0 ⟨some [], some 0⟩
        ⟨[⟨some "AA", some "Door", 1, 1, true, none, none⟩], []⟩).devices ≠ [] := by
  decide

/-- Claim C9 (amended): `get_devices` returns the cached list whenever
the cache is non-empty, younger than 30 s and `force` is not set; on a
cache miss it fetches the primary set with one GET call, and only if
the primary response is empty fetches the secondary set with a second
GET call; the result is always exactly one of the cached list, the
parsed primary set or the parsed secondary set — never a merge. -/
theorem c9_get_devices_amended (force : Bool) (now : Nat)
    (st : DevCacheState) (env : FetchEnv) :
    (∀ ds, st.cache = some ds → cacheHit force now st = true →
      getDevices force now st env = ⟨ds, st, 0⟩) ∧
    (cacheHit force now st = false → env.primary ≠ [] →
      getDevices force now st env =
        ⟨parseDevices env.primary,
          ⟨some (parseDevices env.primary), some now⟩, 1⟩) ∧
    (cacheHit force now st = false → env.primary = [] →
      getDevices force now st env =
        ⟨parseDevices env.secondary,
          ⟨some (parseDevices env.secondary), some now⟩, 2⟩) ∧
    ((∃ ds, st.cache = some ds ∧ (getDevices force now st env).devices = ds) ∨
      (getDevices force now st env).devices = parseDevices env.primary ∨
      (getDevices force now st env).devices = parseDevices env.secondary) := by
  have hfetch : ∀ hp : ¬ env.primary = [],
      fetchDevices now env =
        ⟨parseDevices env.primary, ⟨some (parseDevices env.primary), some now⟩, 1⟩ := by
    intro hp
    have : env.primary.isEmpty = false := by
      cases henv : env.primary with
      | nil => exact absurd henv hp
      | cons a l => simp
    simp [fetchDevices, this]
  have hfetch2 : env.primary = [] →
      fetchDevices now env =
        ⟨parseDevices env.secondary, ⟨some (parseDevices env.secondary), some now⟩, 2⟩ := by
    intro hp
    simp [fetchDevices, hp]
  obtain ⟨c, ct⟩ := st
  refine ⟨fun ds hds hhit => getDevices_cacheHit_eq force now ⟨c, ct⟩ env ds hds hhit,
    ?_, ?_, ?_⟩
  · intro hmiss hp
    cases c with
    | none => cases ct <;> simpa [getDevices] using hfetch hp
    | some ds =>
      cases ct with
      | none => simpa [getDevices] using hfetch hp
      | some ts =>
        simp only [cacheHit] at hmiss
        simp only [getDevices, hmiss, Bool.false_eq_true, if_false]
        exact hfetch hp
  · intro hmiss hp
    cases c with
    | none => cases ct <;> simpa [getDevices] using hfetch2 hp
    | some ds =>
      cases ct with
      | none => simpa [getDevices] using hfetch2 hp
      | some ts =>
        simp only [cacheHit] at hmiss
        simp only [getDevices, hmiss, Bool.false_eq_true, if_false]
        exact hfetch2 hp
  · cases c with
    | none =>
      cases ct <;>
        cases henv : env.primary with
        | nil => right; right; simp [getDevices, fetchDevices, henv]
        | cons a l => right; left; simp [getDevices, fetchDevices, henv]
    | some ds =>
      cases ct with
      | none =>
        cases henv : env.primary with
        | nil => right; right; simp [getDevices, fetchDevices, henv]
        | cons a l => right; left; simp [getDevices, fetchDevices, henv]
      | some ts =>
        by_cases hcond : (!force && !ds.isEmpty && decide (now - ts < 30)) = true
        · left
          exact ⟨ds, rfl, by simp [getDevices, hcond]⟩
        · cases henv : env.primary with
          | nil =>
            right; right
            simp only [getDevices, eq_false_of_ne_true hcond,
              Bool.false_eq_true, if_false]
            simp [fetchDevices, henv]
          | cons a l =>
            right; left
            simp only [getDevices, eq_false_of_ne_true hcond,
              Bool.false_eq_true, if_false]
            simp [fetchDevices, henv]

/-- Witness for `c9_get_devices_amended`: a fresh non-empty cache is
returned as-is with no network call, and with a cold cache the primary
set is fetched. -/
theorem c9_get_devices_amended_witness :
    getDevices false 5 ⟨some [⟨"AA", "Door", 1, 1, "online", none⟩], some 0⟩
        ⟨[⟨some "BB", some "Gate", 2, 1, true, none, none⟩], []⟩ =
      ⟨[⟨"AA", "Door", 1, 1, "online", none⟩],
        ⟨some [⟨"AA", "Door", 1, 1, "online", none⟩], some 0⟩, 0⟩ ∧
    getDevices false 5 ⟨none, none⟩
        ⟨[⟨some "BB", some "Gate", 2, 1, true, none, none⟩], []⟩ =
      ⟨parseDevices [⟨some "BB", some "Gate", 2, 1, true, none, none⟩],
        ⟨some (parseDevices [⟨some "BB", some "Gate", 2, 1, true, none, none⟩]),
          some 5⟩, 1⟩ := by
  constructor
  · exact (c9_get_devices_amended false 5
      ⟨some [⟨"AA", "Door", 1, 1, "online", none⟩], some 0⟩
      ⟨[⟨some "BB", some "Gate", 2, 1, true, none, none⟩], []⟩).1
      [⟨"AA", "Door", 1, 1, "online", none⟩] rfl (by decide)
  · exact (c9_get_devices_amended false 5 ⟨none, none⟩
      ⟨[⟨some "BB", some "Gate", 2, 1, true, none, none⟩], []⟩).2.1
      (by decide) (by decide)

/-- Claim C3 (counterexample): with a cold cache, `open_door` on an
unknown id performs one GET `/domofon/relays` network call (through
`get_device_by_id` → `get_devices`) before failing, so it does not
perform zero network calls. -/
theorem c3_open_door_counterexample :
    (openDoor "BB" 0 ⟨none, none⟩
        ⟨[⟨some "AA", some "Door", 1, 1, true, none, none⟩], []⟩ true).getCalls ≠ 0 ∧
    (openDoor "BB" 0 ⟨none, none⟩
        ⟨[⟨some "AA", some "Door", 1, 1, true, none, none⟩], []⟩ true).outcome =
      .error ⟨"Device not found: BB", some "BB", some "DEVICE_NOT_FOUND"⟩ := by
  constructor
  · decide
  · rfl

/-- Claim C3 (amended): for every device id absent from the resolved
device list, `open_door` fails with a `DeviceControlError` carrying the
`DEVICE_NOT_FOUND` code and never issues the door-open POST; it
performs zero network calls when the device cache is fresh (non-empty
and younger than 30 s), but resolving the device may itself refresh
the device list over the network when the cache is stale. -/
theorem c3_open_door_not_found_amended (deviceId : String) (now : Nat)
    (st : DevCacheState) (env : FetchEnv) (postOk : Bool)
    (habs : ∀ d ∈ (getDevices false now st env).devices, d.id ≠ deviceId) :
    (openDoor deviceId now st env postOk).outcome =
      .error ⟨"Device not found: " ++ deviceId, some deviceId,
        some "DEVICE_NOT_FOUND"⟩ ∧
    (openDoor deviceId now st env postOk).postCalls = 0 ∧
    (∀ ds, st.cache = some ds → cacheHit false now st = true →
      (openDoor deviceId now st env postOk).getCalls = 0) := by
  have hfind : (getDevices false now st env).devices.find?
      (fun d => d.id = deviceId) = none := by
    apply List.find?_eq_none.mpr
    intro d hd
    simpa using habs d hd
  refine ⟨?_, ?_, ?_⟩
  · simp [openDoor, hfind]
  · simp [openDoor, hfind]
  · intro ds hds hhit
    have hget := getDevices_cacheHit_eq false now st env ds hds hhit
    rw [hget] at hfind
    simp [openDoor, hget, hfind]

/-- Witness for `c3_open_door_not_found_amended`: a fresh cache holding
only device `AA`; opening `BB` fails with `DEVICE_NOT_FOUND`, zero POST
calls and zero GET calls. -/
theorem c3_open_door_not_found_amended_witness :
    (openDoor "BB" 5 ⟨some [⟨"AA", "Door", 1, 1, "online", none⟩], some 0⟩
        ⟨[], []⟩ true).outcome =
      .error ⟨"Device not found: BB", some "BB", some "DEVICE_NOT_FOUND"⟩ ∧
    (openDoor "BB" 5 ⟨some [⟨"AA", "Door", 1, 1, "online", none⟩], some 0⟩
        ⟨[], []⟩ true).postCalls = 0 ∧
    (openDoor "BB" 5 ⟨some [⟨"AA", "Door", 1, 1, "online", none⟩], some 0⟩
        ⟨[], []⟩ true).getCalls = 0 := by
  have h := c3_open_door_not_found_amended "BB" 5
    ⟨some [⟨"AA", "Door", 1, 1, "online", none⟩], some 0⟩ ⟨[], []⟩ true
    (by decide)
  exact ⟨h.1, h.2.1, h.2.2 [⟨"AA", "Door", 1, 1, "online", none⟩] rfl (by decide)⟩

/-- Claim C4: after a successful `open_door` at `t1`, exactly one
locked transition is published, 5 s later; a second successful
`open_door` at `t2` before the timer fires cancels the pending reset
task and starts a fresh 5-second timer, so the sole locked transition
fires at `t2 + 5` — never twice.  The single-open case is the second
conjunct. -/
theorem c4_lock_reset_timer (t1 t2 t3 t4 : Nat)
    (h12 : t1 ≤ t2) (hpre : t2 < t1 + LOCK_RESET_DELAY_SECONDS)
    (h3 : t2 + LOCK_RESET_DELAY_SECONDS ≤ t3) (h34 : t3 ≤ t4) :
    lockedTransitions (runTimer ⟨none, []⟩
        [.openAt t1, .advanceTo t2, .openAt t2, .advanceTo t3, .advanceTo t4]) =
      [(t2 + LOCK_RESET_DELAY_SECONDS, true)] ∧
    (∀ u1 u2 u3 : Nat, u1 + LOCK_RESET_DELAY_SECONDS ≤ u2 → u2 ≤ u3 →
      lockedTransitions (runTimer ⟨none, []⟩
          [.openAt u1, .advanceTo u2, .advanceTo u3]) =
        [(u1 + LOCK_RESET_DELAY_SECONDS, true)]) := by
  constructor
  · have hn1 : ¬ (t1 + LOCK_RESET_DELAY_SECONDS ≤ t2) := by omega
    simp [runTimer, openDoorTimer, advanceTimer, hn1, h3, lockedTransitions,
      List.filter]
  · intro u1 u2 u3 hu2 hu3
    simp [runTimer, openDoorTimer, advanceTimer, hu2, lockedTransitions,
      List.filter]

/-- Witness for `c4_lock_reset_timer` at the spec's example: open at 0,
re-open at 2, the sole locked transition fires at 7. -/
theorem c4_lock_reset_timer_witness :
    lockedTransitions (runTimer ⟨none, []⟩
        [.openAt 0, .advanceTo 2, .openAt 2, .advanceTo 7, .advanceTo 12]) =
      [(7, true)] ∧
    lockedTransitions (runTimer ⟨none, []⟩
        [.openAt 0, .advanceTo 5, .advanceTo 6]) = [(5, true)] := by
  have h := c4_lock_reset_timer 0 2 7 12 (by decide) (by decide) (by decide)
    (by decide)
  exact ⟨h.1, h.2 0 5 6 (by decide) (by decide)⟩

/-- Claim C8: a tracked device marked online whose last successful
contact is more than 30 s old is published offline exactly once by a
monitor tick; a further tick while it is still offline publishes
nothing for it; a later successful contact (`update_device_status`
online) publishes exactly one online transition.  The device occurs in
`_last_successful_connection` at position `l1 ++ (d, last) :: l2` with
the keys before it different from `d`. -/
theorem c8_offline_online_edge_triggered (s : MonitorState) (d : String)
    (last now now2 now3 : Nat) (l1 l2 : List (String × Nat))
    (hsplit : s.lastSeen = l1 ++ (d, last) :: l2)
    (hl1 : ∀ e ∈ l1, e.1 ≠ d)
    (hstale : CONNECTION_TIMEOUT_SECONDS < now - last)
    (st0 : DeviceStatus)
    (hstatus : lookupAssoc d s.deviceStatus = some st0)
    (hon : st0.isOnline = true) :
    publishedFor d (checkTick now s) =
      publishedFor d s ++ [⟨d, false, now, some last⟩] ∧
    publishedFor d (checkTick now2 (checkTick now s)) =
      publishedFor d (checkTick now s) ∧
    publishedFor d
        (updateDeviceStatus d true now3 (checkTick now2 (checkTick now s))) =
      publishedFor d (checkTick now2 (checkTick now s)) ++
        [⟨d, true, now3, some last⟩] := by
  have hlookupLS : lookupAssoc d s.lastSeen = some last := by
    rw [hsplit]
    exact lookupAssoc_split d last l1 l2 hl1
  have hA := foldl_checkOneDevice_other now d l1 s hl1
  have hAstat : lookupAssoc d (l1.foldl (checkOneDevice now) s).deviceStatus =
      some st0 := hA.1.trans hstatus
  have hAls : (l1.foldl (checkOneDevice now) s).lastSeen = s.lastSeen := hA.2.2
  have hstep := checkOneDevice_fire now (l1.foldl (checkOneDevice now) s)
    d last st0 hstale hAstat hon
  have hup := updateDeviceStatus_to_offline d now
    (l1.foldl (checkOneDevice now) s) st0 hAstat hon
  have hBstat : lookupAssoc d
      (updateDeviceStatus d false now
        (l1.foldl (checkOneDevice now) s)).deviceStatus =
      some ⟨d, false, now, some last⟩ := by
    rw [hup.1, hAls, hlookupLS]
  have hBpub : publishedFor d
      (updateDeviceStatus d false now (l1.foldl (checkOneDevice now) s)) =
      publishedFor d s ++ [⟨d, false, now, some last⟩] := by
    rw [hup.2.1, hA.2.1, hAls, hlookupLS]
  have hBls : (updateDeviceStatus d false now
      (l1.foldl (checkOneDevice now) s)).lastSeen = s.lastSeen := by
    rw [hup.2.2, hAls]
  have hC := foldl_checkOneDevice_offlineFixed now d
    ⟨d, false, now, some last⟩ rfl l2
    (updateDeviceStatus d false now (l1.foldl (checkOneDevice now) s)) hBstat
  have htick1 : checkTick now s =
      l2.foldl (checkOneDevice now)
        (updateDeviceStatus d false now (l1.foldl (checkOneDevice now) s)) := by
    unfold checkTick
    rw [hsplit, List.foldl_append, List.foldl_cons, hstep]
  have hpub1 : publishedFor d (checkTick now s) =
      publishedFor d s ++ [⟨d, false, now, some last⟩] := by
    rw [htick1, hC.2.1, hBpub]
  have hT1stat : lookupAssoc d (checkTick now s).deviceStatus =
      some ⟨d, false, now, some last⟩ := by
    rw [htick1]
    exact hC.1
  have hT1ls : (checkTick now s).lastSeen = s.lastSeen := by
    rw [htick1, hC.2.2, hBls]
  have hT2 := foldl_checkOneDevice_offlineFixed now2 d
    ⟨d, false, now, some last⟩ rfl (checkTick now s).lastSeen
    (checkTick now s) hT1stat
  have htick2 : checkTick now2 (checkTick now s) =
      (checkTick now s).lastSeen.foldl (checkOneDevice now2)
        (checkTick now s) := rfl
  refine ⟨hpub1, ?_, ?_⟩
  · rw [htick2]
    exact hT2.2.1
  · have hcur2 : lookupAssoc d
        (checkTick now2 (checkTick now s)).deviceStatus =
        some ⟨d, false, now, some last⟩ := by
      rw [htick2]
      exact hT2.1
    have h3 := updateDeviceStatus_to_online d now3
      (checkTick now2 (checkTick now s)) ⟨d, false, now, some last⟩ hcur2 rfl
    rw [h3]
    have hls2 : (checkTick now2 (checkTick now s)).lastSeen = s.lastSeen := by
      rw [htick2]
      rw [hT2.2.2, hT1ls]
    rw [hls2, hlookupLS]

/-- Witness for `c8_offline_online_edge_triggered`: one tracked device
`dev`, marked online at 0, last seen at 0; a tick at 31 publishes the
single offline transition, a tick at 41 publishes nothing more, and a
successful contact at 50 publishes the single online transition. -/
theorem c8_offline_online_edge_triggered_witness :
    publishedFor "dev"
        (checkTick 31 ⟨[("dev", ⟨"dev", true, 0, some 0⟩)], [("dev", 0)], []⟩) =
      publishedFor "dev"
        (⟨[("dev", ⟨"dev", true, 0, some 0⟩)], [("dev", 0)], []⟩ : MonitorState) ++
        [⟨"dev", false, 31, some 0⟩] ∧
    publishedFor "dev"
        (checkTick 41 (checkTick 31
          ⟨[("dev", ⟨"dev", true, 0, some 0⟩)], [("dev", 0)], []⟩)) =
      publishedFor "dev"
        (checkTick 31 ⟨[("dev", ⟨"dev", true, 0, some 0⟩)], [("dev", 0)], []⟩) ∧
    publishedFor "dev"
        (updateDeviceStatus "dev" true 50 (checkTick 41 (checkTick 31
          ⟨[("dev", ⟨"dev", true, 0, some 0⟩)], [("dev", 0)], []⟩))) =
      publishedFor "dev"
        (checkTick 41 (checkTick 31
          ⟨[("dev", ⟨"dev", true, 0, some 0⟩)], [("dev", 0)], []⟩)) ++
        [⟨"dev", true, 50, some 0⟩] :=
  c8_offline_online_edge_triggered
    ⟨[("dev", ⟨"dev", true, 0, some 0⟩)], [("dev", 0)], []⟩ "dev" 0 31 41 50
    [] [] rfl (by simp) (by decide) ⟨"dev", true, 0, some 0⟩ rfl rfl

/-- Claim C10 (counterexample): `_mask_sensitive_data` is not
idempotent.  On the input `"authid":"TOKEN":"x"TOKEN":"y"` the first
application consumes the quote before the second `TOKEN` while masking
the first, leaving `"TOKEN":"y"` intact; the replacement re-introduces
a quote in front of it, so a second application masks it too and the
output changes. -/
theorem c10_mask_not_idempotent_counterexample :
    maskSensitiveData
        (maskSensitiveData ("\"authid\":\"TOKEN\":\"x\"TOKEN\":\"y\"".toList)) ≠
      maskSensitiveData ("\"authid\":\"TOKEN\":\"x\"TOKEN\":\"y\"".toList) := by
  decide

/-- Claim C10 (amended): masking is not idempotent in general — when
quoted sensitive fields abut so that one match's quote characters are
shared with another, a second application can mask further text (it
can only mask more, never restore masked text).  On strings containing
none of the sensitive trigger substrings (`"TOKEN"`, `"PASSWORD"`,
`"password"`, `"phone"`, `"code"`, `"access_token"`,
`"firebase_token"`, `Bearer`, `"authid"`), the mask is the identity
and hence idempotent. -/
theorem c10_mask_idempotent_amended (s : List Char)
    (hfree : ∀ p ∈ maskTriggers, occursIn p s = false) :
    maskSensitiveData s = s ∧
    maskSensitiveData (maskSensitiveData s) = maskSensitiveData s := by
  have h1 := hfree (quotedTrigger ("TOKEN".toList)) (by simp [maskTriggers])
  have h2 := hfree (quotedTrigger ("PASSWORD".toList)) (by simp [maskTriggers])
  have h3 := hfree (quotedTrigger ("password".toList)) (by simp [maskTriggers])
  have h4 := hfree (quotedTrigger ("phone".toList)) (by simp [maskTriggers])
  have h5 := hfree (quotedTrigger ("code".toList)) (by simp [maskTriggers])
  have h6 := hfree (quotedTrigger ("access_token".toList)) (by simp [maskTriggers])
  have h7 := hfree (quotedTrigger ("firebase_token".toList)) (by simp [maskTriggers])
  have h8 := hfree ("Bearer".toList) (by simp [maskTriggers])
  have h9 := hfree (quotedTrigger ("authid".toList)) (by simp [maskTriggers])
  have e1 := applySub_no_occurrence (matchQuoted ("TOKEN".toList))
    (replQuoted ("TOKEN".toList)) (quotedTrigger ("TOKEN".toList))
    (matchQuoted_isSome ("TOKEN".toList)) s h1
  have e2 := applySub_no_occurrence (matchQuoted ("PASSWORD".toList))
    (replQuoted ("PASSWORD".toList)) (quotedTrigger ("PASSWORD".toList))
    (matchQuoted_isSome ("PASSWORD".toList)) s h2
  have e3 := applySub_no_occurrence (matchQuoted ("password".toList))
    (replQuoted ("password".toList)) (quotedTrigger ("password".toList))
    (matchQuoted_isSome ("password".toList)) s h3
  have e4 := applySub_no_occurrence (matchQuoted ("phone".toList))
    (replQuoted ("phone".toList)) (quotedTrigger ("phone".toList))
    (matchQuoted_isSome ("phone".toList)) s h4
  have e5 := applySub_no_occurrence (matchQuoted ("code".toList))
    (replQuoted ("code".toList)) (quotedTrigger ("code".toList))
    (matchQuoted_isSome ("code".toList)) s h5
  have e6 := applySub_no_occurrence (matchQuoted ("access_token".toList))
    (replQuoted ("access_token".toList)) (quotedTrigger ("access_token".toList))
    (matchQuoted_isSome ("access_token".toList)) s h6
  have e7 := applySub_no_occurrence (matchQuoted ("firebase_token".toList))
    (replQuoted ("firebase_token".toList)) (quotedTrigger ("firebase_token".toList))
    (matchQuoted_isSome ("firebase_token".toList)) s h7
  have e8 := applySub_no_occurrence matchBearer replBearer ("Bearer".toList)
    matchBearer_isSome s h8
  have e9 := applySub_no_occurrence (matchQuoted ("authid".toList))
    (replQuoted ("authid".toList)) (quotedTrigger ("authid".toList))
    (matchQuoted_isSome ("authid".toList)) s h9
  have hid : maskSensitiveData s = s := by
    simp only [maskSensitiveData, sensitiveSubs, List.foldl]
    rw [e1, e2, e3, e4, e5, e6, e7, e8, e9]
  exact ⟨hid, by rw [hid, hid]⟩

/-- Witness for `c10_mask_idempotent_amended` on a trigger-free
string. -/
theorem c10_mask_idempotent_amended_witness :
    maskSensitiveData ("hello world".toList) = "hello world".toList ∧
    maskSensitiveData (maskSensitiveData ("hello world".toList)) =
      maskSensitiveData ("hello world".toList) :=
  c10_mask_idempotent_amended ("hello world".toList) (by decide)

end IS74
